import Mathlib

/-!
Verification of the per-frame driving-simulation update loop of `src/main.js`.

The simulation state and the `update(dt)` function are embedded shallowly:
every numeric variable of the source becomes a rational number, key state
becomes a record of booleans, and the per-frame mutation becomes a pure
state-transition function `tick`.  The only non-rational operation of the
source is the trigonometric forward vector obtained from the car's
quaternion (`new THREE.Vector3(0,0,-1).applyQuaternion(car.quaternion)`,
equal to `(-sin yaw, 0, -cos yaw)`); its two components are passed to
`tick` as oracle parameters `cy`, `sy` (cosine and sine of the current
yaw), and every theorem quantifies over them.  Likewise each call to
`Math.random()` in the traffic-respawn code becomes an oracle value in
`[0,1)` supplied per agent through a function `ℕ → Rnd`.
-/

namespace AMG

/-- Key state read by the update loop: `w` throttle, `s` brake, `a` steer
left, `d` steer right, `z` left signal, `x` right signal
(`src/main.js:113-115`, `keys` map). -/
structure Keys where
  w : Bool
  s : Bool
  a : Bool
  d : Bool
  z : Bool
  x : Bool
deriving DecidableEq

/-- One traffic car: lane x-coordinate, longitudinal z-coordinate, and the
cruise speed stored in `mesh.userData.speed` (km/h).  The constant
y-coordinate (0.6) is omitted. -/
structure Agent where
  x : ℚ
  z : ℚ
  speed : ℚ
deriving DecidableEq

/-- Oracle for the three `Math.random()` calls of one traffic respawn
(lane index, distance ahead, new cruise speed); each component models a
value drawn from `[0,1)`. -/
structure Rnd where
  lane : ℚ
  dist : ℚ
  spd : ℚ

/-- The mutable driving state of `src/main.js:117-125` together with the
car object's pose (`car.position.x/z`, `car.rotation.y`).  `gear` is the
constant string "D" and is not part of the numeric state. -/
structure SimState where
  speed : ℚ
  rpm : ℚ
  steeringInput : ℚ
  steeringAngle : ℚ
  posX : ℚ
  posZ : ℚ
  yaw : ℚ
  leftSignal : Bool
  rightSignal : Bool
  signalBlink : Bool
  signalTimer : ℚ
  traffic : List Agent

/-- Linear interpolation as implemented by `THREE.MathUtils.lerp` in
three.js r160: `lerp(x, y, t) = (1 - t) * x + t * y`.  The interpolation
parameter is NOT clamped to `[0,1]`. -/
def lerp (x y t : ℚ) : ℚ := (1 - t) * x + t * y

/-- Longitudinal speed update (`src/main.js:132-140`): throttle adds
`120*dt`, brake subtracts `200*dt`, drag removes `speed*0.35*dt`, and the
result is clamped to `[0, 260]` by `Math.max(0, Math.min(260, speed))`. -/
def speedStep (k : Keys) (dt sp : ℚ) : ℚ :=
  let sp1 := if k.w then sp + 120 * dt else sp
  let sp2 := if k.s then sp1 - 200 * dt else sp1
  let sp3 := sp2 - sp2 * (7/20) * dt
  max 0 (min 260 sp3)

/-- Engine rpm (`src/main.js:143-144`):
`rpm = 900 + speed*40 + (keys["w"] ? 500 : 0)`, then `Math.min(7500, rpm)`. -/
def rpmOf (k : Keys) (sp : ℚ) : ℚ :=
  min 7500 (900 + sp * 40 + (if k.w then 500 else 0))

/-- Steering input update (`src/main.js:147-150`): A adds `3*dt`, D
subtracts `3*dt`, the value is clamped to `[-1, 1]`, then multiplied by
`0.9` (the multiplication happens every tick, independent of `dt`). -/
def steeringStep (k : Keys) (dt si : ℚ) : ℚ :=
  let si1 := if k.a then si + 3 * dt else si
  let si2 := if k.d then si1 - 3 * dt else si1
  max (-1) (min 1 si2) * (9/10)

/-- Speed-sensitive steering strength (`src/main.js:153`):
`THREE.MathUtils.lerp(1.8, 0.4, speed / 200)`. -/
def steeringStrength (sp : ℚ) : ℚ := lerp (9/5) (2/5) (sp / 200)

/-- Lane center for a random draw `r ∈ [0,1)` (`src/main.js:181-182`):
`laneIndex = Math.floor(r * 4)`, `laneX = (laneIndex - 1.5) * (12 / 4)`. -/
def laneXOf (r : ℚ) : ℚ := ((⌊r * 4⌋ : ℤ) - 3/2) * 3

/-- One traffic car's update inside the loop of `src/main.js:174-186`:
move by `((speed - egoSpeed) / 3.6) * dt`, then, if the new z exceeds
`carZ + 50`, respawn at a random lane, `z = carZ - 150 - rand*150`, with a
new cruise speed `60 + rand*80`.  `carZ` is the ego car's z AFTER this
tick's own movement. -/
def agentStep (dt egoSpeed carZ : ℚ) (rnd : Rnd) (a : Agent) : Agent :=
  let z1 := a.z + (a.speed - egoSpeed) / (18/5) * dt
  if z1 > carZ + 50 then
    { x := laneXOf rnd.lane, z := carZ - 150 - rnd.dist * 150, speed := 60 + rnd.spd * 80 }
  else
    { a with z := z1 }

/-- The traffic `for`-loop: every agent is updated in place; the i-th
agent's potential respawn consumes the oracle `r i`. -/
def trafficStep (dt egoSpeed carZ : ℚ) (r : ℕ → Rnd) : ℕ → List Agent → List Agent
  | _, [] => []
  | i, a :: rest => agentStep dt egoSpeed carZ (r i) a :: trafficStep dt egoSpeed carZ r (i + 1) rest

/-- Signal activation (`src/main.js:189-200`): Z sets left on / right off,
X sets right on / left off, and when both are held both are forced off. -/
def signalStep (k : Keys) (l r : Bool) : Bool × Bool :=
  let l1 := if k.z then true else l
  let r1 := if k.z then false else r
  let l2 := if k.x then false else l1
  let r2 := if k.x then true else r1
  if k.z && k.x then (false, false) else (l2, r2)

/-- Blink oscillator (`src/main.js:202-206`): the timer accumulates `dt`;
when it strictly exceeds `0.5` it resets to `0` and the phase flips. -/
def timerStep (dt t : ℚ) (b : Bool) : ℚ × Bool :=
  let t1 := t + dt
  if t1 > 1/2 then (0, !b) else (t1, b)

/-- HUD signal text (`src/main.js:220-223`). -/
def signalDisplay (l r b : Bool) : String :=
  if l && r && b then "Hazard"
  else if l && b then "Left"
  else if r && b then "Right"
  else "Off"

/-- One call of `update(dt)` (`src/main.js:130-224`), in source order:
speed, rpm, steering input, steering strength and yaw delta, forward
movement (using the PRE-rotation heading `(-sy, -cy)` scaled by
`(speed/3.6)*dt`), yaw integration, visual steering angle, traffic update
(using the updated speed and the post-movement `carZ`), signal activation,
and the blink timer.  `cy`/`sy` are the cosine/sine of the current yaw as
computed by the rendering library; `r` supplies the random draws. -/
def tick (k : Keys) (dt cy sy : ℚ) (r : ℕ → Rnd) (st : SimState) : SimState :=
  let sp := speedStep k dt st.speed
  let si := steeringStep k dt st.steeringInput
  let yawDelta := si * steeringStrength sp * dt
  let dist := sp / (18/5) * dt
  let px := st.posX + (-sy) * dist
  let pz := st.posZ + (-cy) * dist
  let sig := signalStep k st.leftSignal st.rightSignal
  let tb := timerStep dt st.signalTimer st.signalBlink
  { speed := sp
    rpm := rpmOf k sp
    steeringInput := si
    steeringAngle := si * (7/10)
    posX := px
    posZ := pz
    yaw := st.yaw + yawDelta
    leftSignal := sig.1
    rightSignal := sig.2
    signalBlink := tb.2
    signalTimer := tb.1
    traffic := trafficStep dt sp pz r 0 st.traffic }

/-- Inputs of one tick: key snapshot, elapsed time, heading oracle, and
the random oracle for traffic respawns. -/
structure TickIn where
  k : Keys
  dt : ℚ
  cy : ℚ
  sy : ℚ
  rnds : ℕ → Rnd

/-- Apply one tick's inputs to a state. -/
def stepIn (st : SimState) (i : TickIn) : SimState := tick i.k i.dt i.cy i.sy i.rnds st

/-- Run a whole sequence of ticks. -/
def runTicks (l : List TickIn) (st : SimState) : SimState := l.foldl stepIn st

/-- Initial driving state of `src/main.js:117-125` (car at the origin,
yaw 0); the randomly spawned traffic pool is passed in as a parameter. -/
def initState (tr : List Agent) : SimState :=
  { speed := 0, rpm := 800, steeringInput := 0, steeringAngle := 0,
    posX := 0, posZ := 0, yaw := 0,
    leftSignal := false, rightSignal := false, signalBlink := false, signalTimer := 0,
    traffic := tr }

/-- All keys released. -/
def noKeys : Keys := ⟨false, false, false, false, false, false⟩

/-- A fixed random oracle value. -/
def rnd0 : Rnd := ⟨0, 0, 0⟩

/-- The speed produced by `speedStep` is at least 0 (final clamp). -/
theorem speedStep_nonneg (k : Keys) (dt sp : ℚ) : 0 ≤ speedStep k dt sp :=
  le_max_left 0 _

/-- The speed produced by `speedStep` is at most 260 (final clamp). -/
theorem speedStep_le (k : Keys) (dt sp : ℚ) : speedStep k dt sp ≤ 260 :=
  max_le (by norm_num) (min_le_left _ _)

/-- The clamp to `[-1, 1]` has absolute value at most 1. -/
theorem clamp1_abs_le_one (x : ℚ) : |max (-1) (min 1 x)| ≤ 1 := by
  rw [abs_le]
  exact ⟨le_max_left _ _, max_le (by norm_num) (min_le_left _ _)⟩

/-- The steering input produced by `steeringStep` has magnitude at most
0.9: the clamp to `[-1,1]` is followed by the `* 0.9` in the same tick. -/
theorem steeringStep_abs_le (k : Keys) (dt si : ℚ) :
    |steeringStep k dt si| ≤ 9/10 := by
  unfold steeringStep
  rw [abs_mul]
  calc |max (-1) (min 1 (if k.d then (if k.a then si + 3 * dt else si) - 3 * dt
          else if k.a then si + 3 * dt else si))| * |(9/10 : ℚ)|
      ≤ 1 * |(9/10 : ℚ)| := by
        exact mul_le_mul_of_nonneg_right (clamp1_abs_le_one _) (abs_nonneg _)
    _ ≤ 9/10 := by rw [abs_of_nonneg (by norm_num : (0:ℚ) ≤ 9/10)]; norm_num

/-- C4: for every sequence of ticks with arbitrary dt values and arbitrary
key-input states, the vehicle speed lies in [0, 260] km/h at the end of
every tick (stated as: after any prefix of ticks followed by one more
tick, the speed is within bounds). -/
theorem C4_speed_bounds (l : List TickIn) (i : TickIn) (st : SimState) :
    0 ≤ (stepIn (runTicks l st) i).speed ∧ (stepIn (runTicks l st) i).speed ≤ 260 := by
  simp only [stepIn, tick]
  exact ⟨speedStep_nonneg _ _ _, speedStep_le _ _ _⟩

/-- C3: after every tick, for every state and every input, rpm lies in
[0, 7500] and equals exactly `clamp(900 + speed*40 + (throttle ? 500 : 0),
0, 7500)`, where `speed` is the speed updated in the same tick. -/
theorem C3_rpm_bounds (k : Keys) (dt cy sy : ℚ) (r : ℕ → Rnd) (st : SimState) :
    0 ≤ (tick k dt cy sy r st).rpm ∧ (tick k dt cy sy r st).rpm ≤ 7500 ∧
    (tick k dt cy sy r st).rpm
      = max 0 (min 7500 (900 + (tick k dt cy sy r st).speed * 40
          + (if k.w then 500 else 0))) := by
  have hsp : 0 ≤ speedStep k dt st.speed := speedStep_nonneg k dt st.speed
  have hw : (0:ℚ) ≤ (if k.w then (500:ℚ) else 0) := by split <;> norm_num
  have hin : (0:ℚ) ≤ 900 + speedStep k dt st.speed * 40 + (if k.w then 500 else 0) := by
    have := mul_nonneg hsp (by norm_num : (0:ℚ) ≤ 40)
    linarith
  have hmin : (0:ℚ) ≤ min 7500 (900 + speedStep k dt st.speed * 40
      + (if k.w then 500 else 0)) := le_min (by norm_num) hin
  refine ⟨?_, ?_, ?_⟩
  · simpa [tick, rpmOf] using hmin
  · simp only [tick, rpmOf]
    exact min_le_left _ _
  · simp only [tick, rpmOf]
    exact (max_eq_right hmin).symm

/-- C6: the HUD signal text matches the resolution table:
(T,T,T) gives "Hazard", (T,F,T) gives "Left", (F,T,T) gives "Right", any
state with blink phase false gives "Off", and (F,F,-) gives "Off". -/
theorem C6_signal_table :
    signalDisplay true true true = "Hazard" ∧
    signalDisplay true false true = "Left" ∧
    signalDisplay false true true = "Right" ∧
    (∀ l r : Bool, signalDisplay l r false = "Off") ∧
    (∀ b : Bool, signalDisplay false false b = "Off") := by
  refine ⟨rfl, rfl, rfl, ?_, ?_⟩
  · intro l r; cases l <;> cases r <;> rfl
  · intro b; cases b <;> rfl

/-- C7: in every tick where both the left-signal key (Z) and the
right-signal key (X) are held, the tick ends with both indicators off,
regardless of the prior signal state. -/
theorem C7_both_keys_cancel (w s a d : Bool) (dt cy sy : ℚ) (r : ℕ → Rnd) (st : SimState) :
    (tick ⟨w, s, a, d, true, true⟩ dt cy sy r st).leftSignal = false ∧
    (tick ⟨w, s, a, d, true, true⟩ dt cy sy r st).rightSignal = false := by
  simp [tick, signalStep]

/-- C10: at the end of every tick, the steering input magnitude is at most
0.9, the visual steering-wheel angle magnitude is at most 0.63 radians,
and the steering input never equals plus or minus 1 at a tick boundary. -/
theorem C10_steering_margin (k : Keys) (dt cy sy : ℚ) (r : ℕ → Rnd) (st : SimState) :
    |(tick k dt cy sy r st).steeringInput| ≤ 9/10 ∧
    |(tick k dt cy sy r st).steeringAngle| ≤ 63/100 ∧
    (tick k dt cy sy r st).steeringInput ≠ 1 ∧
    (tick k dt cy sy r st).steeringInput ≠ -1 := by
  have h : |(tick k dt cy sy r st).steeringInput| ≤ 9/10 := by
    simp only [tick]
    exact steeringStep_abs_le k dt st.steeringInput
  refine ⟨h, ?_, ?_, ?_⟩
  · have ha : (tick k dt cy sy r st).steeringAngle
        = (tick k dt cy sy r st).steeringInput * (7/10) := by
      simp [tick]
    rw [ha, abs_mul, abs_of_nonneg (by norm_num : (0:ℚ) ≤ 7/10)]
    nlinarith [abs_nonneg (tick k dt cy sy r st).steeringInput]
  · intro he; rw [he] at h; norm_num at h
  · intro he; rw [he] at h; norm_num at h

/-- C2 counterexample: the interpolation parameter `speed / 200` is not
clamped, so at the reachable speed 260 km/h the steering strength is
-0.02, strictly below 0.4 — refuting "for every speed at or above 200 km/h
it equals 0.4 (it never drops below 0.4)". -/
theorem C2_counterexample :
    steeringStrength 260 = -1/50 ∧ steeringStrength 260 < 2/5 := by
  norm_num [steeringStrength, lerp]

/-- C2 (amended): for every speed the steering strength equals the
unclamped linear interpolation `(1 - speed/200)*1.8 + (speed/200)*0.4 =
1.8 - 0.007*speed`; it equals 0.4 exactly at 200 km/h, and for every speed
strictly above 200 km/h it is strictly below 0.4. -/
theorem C2_strength_linear (sp : ℚ) :
    steeringStrength sp = 9/5 - 7/1000 * sp ∧
    steeringStrength 200 = 2/5 ∧
    (200 < sp → steeringStrength sp < 2/5) := by
  have hf : ∀ q : ℚ, steeringStrength q = 9/5 - 7/1000 * q := by
    intro q; unfold steeringStrength lerp; ring
  refine ⟨hf sp, by rw [hf]; norm_num, ?_⟩
  intro h
  rw [hf]
  linarith

/-- Witness for C2 at speed 260. -/
theorem C2_strength_linear_witness :
    steeringStrength 260 = 9/5 - 7/1000 * 260 ∧ steeringStrength 200 = 2/5 ∧
    (200 : ℚ) < 260 ∧ steeringStrength 260 < 2/5 :=
  ⟨(C2_strength_linear 260).1, (C2_strength_linear 260).2.1, by norm_num,
    (C2_strength_linear 260).2.2 (by norm_num)⟩

/-- The clamp to `[-1, 1]` never increases the absolute value. -/
theorem clamp1_abs_le_abs (x : ℚ) : |max (-1) (min 1 x)| ≤ |x| := by
  rw [abs_le]
  constructor
  · rcases le_or_lt 0 x with hx | hx
    · have h1 : (0:ℚ) ≤ min 1 x := le_min (by norm_num) hx
      have := le_max_right (-1 : ℚ) (min 1 x)
      have hax : -|x| ≤ 0 := neg_nonpos_of_nonneg (abs_nonneg x)
      linarith
    · have hx' : min 1 x = x := min_eq_right (by linarith)
      rw [hx', abs_of_neg hx, neg_neg]
      exact le_max_right (-1) x
  · exact max_le (by linarith [abs_nonneg x])
      (le_trans (min_le_right _ _) (le_abs_self x))

/-- With neither steering key held, one tick multiplies the clamped
steering input by 0.9, so its magnitude shrinks by at least that factor. -/
theorem steeringStep_decay (k : Keys) (dt si : ℚ) (ha : k.a = false) (hd : k.d = false) :
    |steeringStep k dt si| ≤ 9/10 * |si| := by
  unfold steeringStep
  rw [ha, hd]
  simp only [Bool.false_eq_true, if_false]
  rw [abs_mul, abs_of_nonneg (by norm_num : (0:ℚ) ≤ 9/10)]
  linarith [clamp1_abs_le_abs si]

/-- C8: for every initial steering input and every run of consecutive
ticks in which neither steering key is held (with arbitrary dt values,
other keys, heading oracles and random oracles), the final steering-input
magnitude is at most the initial magnitude times `0.9 ^ N`, where `N` is
the number of ticks. -/
theorem C8_steering_decay (l : List TickIn) (st : SimState)
    (h : ∀ i ∈ l, i.k.a = false ∧ i.k.d = false) :
    |(runTicks l st).steeringInput| ≤ |st.steeringInput| * (9/10) ^ l.length := by
  induction l generalizing st with
  | nil => simp [runTicks]
  | cons i t ih =>
    have hi := h i (List.mem_cons_self i t)
    have ht : ∀ j ∈ t, j.k.a = false ∧ j.k.d = false :=
      fun j hj => h j (List.mem_cons_of_mem i hj)
    have hstep : |(stepIn st i).steeringInput| ≤ 9/10 * |st.steeringInput| := by
      simp only [stepIn, tick]
      exact steeringStep_decay i.k i.dt st.steeringInput hi.1 hi.2
    have hrun : runTicks (i :: t) st = runTicks t (stepIn st i) := rfl
    rw [hrun]
    calc |(runTicks t (stepIn st i)).steeringInput|
        ≤ |(stepIn st i).steeringInput| * (9/10) ^ t.length := ih (stepIn st i) ht
      _ ≤ (9/10 * |st.steeringInput|) * (9/10) ^ t.length := by
          exact mul_le_mul_of_nonneg_right hstep (by positivity)
      _ = |st.steeringInput| * (9/10) ^ (i :: t).length := by
          simp [List.length_cons, pow_succ]
          ring

/-- A concrete one-tick input with no steering keys held. -/
def coastIn : TickIn := ⟨noKeys, 1/60, 1, 0, fun _ => rnd0⟩

/-- Witness for C8: one coasting tick from steering input 0 stays within
the geometric bound. -/
theorem C8_steering_decay_witness :
    (∀ i ∈ [coastIn], i.k.a = false ∧ i.k.d = false) ∧
    |(runTicks [coastIn] (initState [])).steeringInput|
      ≤ |(initState []).steeringInput| * (9/10) ^ ([coastIn].length) :=
  ⟨by intro i hi; rw [List.mem_singleton] at hi; subst hi; exact ⟨rfl, rfl⟩,
    C8_steering_decay [coastIn] (initState [])
      (by intro i hi; rw [List.mem_singleton] at hi; subst hi; exact ⟨rfl, rfl⟩)⟩

/-- Throttle key held, everything else released. -/
def kThrottle : Keys := ⟨true, false, false, false, false, false⟩

/-- A state at top speed with one traffic agent 51 m behind the trailing
margin boundary (agent z = 51> egoZ + 50 = 50). -/
def laggedState : SimState :=
  { speed := 260, rpm := 7500, steeringInput := 0, steeringAngle := 0,
    posX := 0, posZ := 0, yaw := 0,
    leftSignal := false, rightSignal := false, signalBlink := false, signalTimer := 0,
    traffic := [⟨0, 51, 60⟩] }

/-- C5 counterexample: the respawn condition is tested AFTER the agent's
relative motion, so an agent beyond `egoZ + 50` before the tick can drift
back under the threshold and is then NOT respawned.  Here the ego drives
260 km/h with the throttle held (speed stays 260) and heads along the x
axis (cy = 0, so its z stays 0); the agent at z = 51 > egoZ + 50 = 50
moves by (60 - 260)/3.6 * 0.05 = -25/9 to 434/9 which is about 48.2 — it
ends BEHIND the ego (z > egoZ = 0), not ahead in [egoZ-300, egoZ-150]. -/
theorem C5_counterexample :
    (51 : ℚ) > laggedState.posZ + 50 ∧
    (tick kThrottle (1/20) 0 1 (fun _ => rnd0) laggedState).posZ = 0 ∧
    (tick kThrottle (1/20) 0 1 (fun _ => rnd0) laggedState).traffic.map Agent.z = [434/9] ∧
    ¬ ((434 : ℚ)/9 < (tick kThrottle (1/20) 0 1 (fun _ => rnd0) laggedState).posZ) := by
  refine ⟨by norm_num [laggedState], ?_, ?_, ?_⟩ <;>
    norm_num [laggedState, kThrottle, tick, speedStep, steeringStep, steeringStrength,
      lerp, trafficStep, agentStep, signalStep, timerStep, rpmOf, rnd0]

/-- C5 (amended): an agent whose z position AFTER this tick's relative
longitudinal move exceeds `egoZ + 50` is respawned with position z in
[egoZ - 300, egoZ - 150] (hence strictly ahead, z < egoZ) and a cruise
speed in [60, 140], for random draws in [0, 1). -/
theorem C5_respawn_ahead (dt egoSpeed carZ : ℚ) (rnd : Rnd) (a : Agent)
    (hd0 : 0 ≤ rnd.dist) (hd1 : rnd.dist < 1)
    (hs0 : 0 ≤ rnd.spd) (hs1 : rnd.spd < 1)
    (hmove : a.z + (a.speed - egoSpeed) / (18/5) * dt > carZ + 50) :
    (agentStep dt egoSpeed carZ rnd a).z < carZ ∧
    carZ - 300 ≤ (agentStep dt egoSpeed carZ rnd a).z ∧
    (agentStep dt egoSpeed carZ rnd a).z ≤ carZ - 150 ∧
    60 ≤ (agentStep dt egoSpeed carZ rnd a).speed ∧
    (agentStep dt egoSpeed carZ rnd a).speed ≤ 140 := by
  unfold agentStep
  rw [if_pos hmove]
  refine ⟨?_, ?_, ?_, ?_, ?_⟩
  · show carZ - 150 - rnd.dist * 150 < carZ
    nlinarith
  · show carZ - 300 ≤ carZ - 150 - rnd.dist * 150
    nlinarith
  · show carZ - 150 - rnd.dist * 150 ≤ carZ - 150
    nlinarith
  · show 60 ≤ 60 + rnd.spd * 80
    nlinarith
  · show 60 + rnd.spd * 80 ≤ 140
    nlinarith

/-- Random oracle used by the C5 witness. -/
def rndHalf : Rnd := ⟨0, 1/2, 1/2⟩

/-- An agent far behind the trailing margin, used by the C5 witness. -/
def farAgent : Agent := ⟨0, 100, 60⟩

/-- Witness for C5 at dt = 1/20, ego speed 0, egoZ 0: the agent at z = 100
moves to 605/6 > 50 and is respawned at z = -225 with speed 100. -/
theorem C5_respawn_ahead_witness :
    (0 ≤ rndHalf.dist ∧ rndHalf.dist < 1 ∧ 0 ≤ rndHalf.spd ∧ rndHalf.spd < 1 ∧
      farAgent.z + (farAgent.speed - 0) / (18/5) * (1/20) > 0 + 50) ∧
    ((agentStep (1/20) 0 0 rndHalf farAgent).z < 0 ∧
      0 - 300 ≤ (agentStep (1/20) 0 0 rndHalf farAgent).z ∧
      (agentStep (1/20) 0 0 rndHalf farAgent).z ≤ 0 - 150 ∧
      60 ≤ (agentStep (1/20) 0 0 rndHalf farAgent).speed ∧
      (agentStep (1/20) 0 0 rndHalf farAgent).speed ≤ 140) :=
  ⟨by norm_num [rndHalf, farAgent],
    C5_respawn_ahead (1/20) 0 0 rndHalf farAgent
      (by norm_num [rndHalf]) (by norm_num [rndHalf])
      (by norm_num [rndHalf]) (by norm_num [rndHalf])
      (by norm_num [farAgent])⟩

/-- A coasting tick of exactly 1/20 s (the dt cap of `src/main.js:227`). -/
def tinTwentieth : TickIn := ⟨noKeys, 1/20, 1, 0, fun _ => rnd0⟩

/-- C9 counterexample: running ten ticks of dt = 0.05 s from the initial
state accumulates the blink timer to exactly 0.5, which is NOT strictly
below 0.5 — the reachable end-of-tick range is [0, 0.5], not [0, 0.5)
(the reset fires only when the timer strictly exceeds 0.5). -/
theorem C9_counterexample :
    (runTicks (List.replicate 10 tinTwentieth) (initState [])).signalTimer = 1/2 ∧
    ¬ ((runTicks (List.replicate 10 tinTwentieth) (initState [])).signalTimer < 1/2) := by
  have h : (runTicks (List.replicate 10 tinTwentieth) (initState [])).signalTimer = 1/2 := by
    norm_num [runTicks, stepIn, tick, speedStep, steeringStep, steeringStrength, lerp,
      trafficStep, signalStep, timerStep, rpmOf, initState, tinTwentieth, noKeys,
      List.replicate]
  exact ⟨h, by rw [h]; exact lt_irrefl _⟩

/-- C9 (amended): given a nonnegative timer and nonnegative dt, the blink
timer ends every tick in the CLOSED interval [0, 0.5]; whenever the
accumulated value strictly exceeds 0.5 the timer resets to 0 and the blink
phase is negated, and otherwise the timer is exactly the accumulated value
and the phase is untouched — in particular signal-key activation (any key
state k) never changes the blink phase. -/
theorem C9_blink_timer (k : Keys) (dt cy sy : ℚ) (r : ℕ → Rnd) (st : SimState)
    (h0 : 0 ≤ st.signalTimer) (hdt : 0 ≤ dt) :
    0 ≤ (tick k dt cy sy r st).signalTimer ∧
    (tick k dt cy sy r st).signalTimer ≤ 1/2 ∧
    (1/2 < st.signalTimer + dt →
      (tick k dt cy sy r st).signalTimer = 0 ∧
      (tick k dt cy sy r st).signalBlink = !st.signalBlink) ∧
    (st.signalTimer + dt ≤ 1/2 →
      (tick k dt cy sy r st).signalTimer = st.signalTimer + dt ∧
      (tick k dt cy sy r st).signalBlink = st.signalBlink) := by
  simp only [tick, timerStep]
  by_cases h : (1:ℚ)/2 < st.signalTimer + dt
  · rw [if_pos h]
    exact ⟨le_refl 0, by norm_num, fun _ => ⟨rfl, rfl⟩,
      fun hc => absurd h (not_lt.mpr hc)⟩
  · rw [if_neg h]
    exact ⟨add_nonneg h0 hdt, not_lt.mp h, fun hc => absurd hc h,
      fun _ => ⟨rfl, rfl⟩⟩

/-- Witness for C9 at the initial state with dt = 1/20 and no keys. -/
theorem C9_blink_timer_witness :
    (0 ≤ (initState []).signalTimer ∧ (0:ℚ) ≤ 1/20) ∧
    (0 ≤ (tick noKeys (1/20) 1 0 (fun _ => rnd0) (initState [])).signalTimer ∧
      (tick noKeys (1/20) 1 0 (fun _ => rnd0) (initState [])).signalTimer ≤ 1/2 ∧
      (1/2 < (initState []).signalTimer + 1/20 →
        (tick noKeys (1/20) 1 0 (fun _ => rnd0) (initState [])).signalTimer = 0 ∧
        (tick noKeys (1/20) 1 0 (fun _ => rnd0) (initState [])).signalBlink
          = !(initState []).signalBlink) ∧
      ((initState []).signalTimer + 1/20 ≤ 1/2 →
        (tick noKeys (1/20) 1 0 (fun _ => rnd0) (initState [])).signalTimer
          = (initState []).signalTimer + 1/20 ∧
        (tick noKeys (1/20) 1 0 (fun _ => rnd0) (initState [])).signalBlink
          = (initState []).signalBlink)) :=
  ⟨⟨by norm_num [initState], by norm_num⟩,
    C9_blink_timer noKeys (1/20) 1 0 (fun _ => rnd0) (initState [])
      (by norm_num [initState]) (by norm_num)⟩

/-- With dt = 0 the longitudinal update reduces to the clamp, which is the
identity on speeds already in [0, 260]. -/
theorem speedStep_zero (k : Keys) (sp : ℚ) (h0 : 0 ≤ sp) (h1 : sp ≤ 260) :
    speedStep k 0 sp = sp := by
  unfold speedStep
  simp only [mul_zero, add_zero, sub_zero, ite_self]
  rw [min_eq_right h1, max_eq_right h0]

/-- With dt = 0 the steering update still clamps and multiplies by 0.9. -/
theorem steeringStep_zero (k : Keys) (si : ℚ) :
    steeringStep k 0 si = max (-1) (min 1 si) * (9/10) := by
  unfold steeringStep
  simp only [mul_zero, add_zero, sub_zero, ite_self]

/-- With dt = 0 a timer at or below 0.5 neither moves nor flips. -/
theorem timerStep_zero (t : ℚ) (b : Bool) (ht : t ≤ 1/2) :
    timerStep 0 t b = (t, b) := by
  unfold timerStep
  simp only [add_zero]
  rw [if_neg (not_lt.mpr ht)]

/-- With dt = 0 no agent moves, and no agent already at or behind the
respawn threshold is touched. -/
theorem trafficStep_zero (egoSpeed pz : ℚ) (r : ℕ → Rnd) (i : ℕ) (l : List Agent)
    (h : ∀ a ∈ l, a.z ≤ pz + 50) :
    trafficStep 0 egoSpeed pz r i l = l := by
  induction l generalizing i with
  | nil => rfl
  | cons a t ih =>
    have ha := h a (List.mem_cons_self a t)
    have hstep : agentStep 0 egoSpeed pz (r i) a = a := by
      unfold agentStep
      simp only [mul_zero, add_zero]
      rw [if_neg (not_lt.mpr ha)]
    rw [trafficStep, hstep, ih (i + 1) (fun b hb => h b (List.mem_cons_of_mem a hb))]

/-- C1 (amended): tick(0) leaves speed, position, yaw, blink timer, blink
phase and the whole traffic pool unchanged (for reachable values: speed in
[0, 260], blink timer at most 0.5, every agent at or behind egoZ + 50),
but it is NOT a no-op on the remaining variables: the steering input is
clamped and multiplied by 0.9 even at dt = 0, the steering angle follows
it, and rpm and the signal booleans are recomputed from the current key
state. -/
theorem C1_tick_zero (k : Keys) (cy sy : ℚ) (r : ℕ → Rnd) (st : SimState)
    (h0 : 0 ≤ st.speed) (h1 : st.speed ≤ 260) (ht : st.signalTimer ≤ 1/2)
    (htr : ∀ a ∈ st.traffic, a.z ≤ st.posZ + 50) :
    (tick k 0 cy sy r st).speed = st.speed ∧
    (tick k 0 cy sy r st).posX = st.posX ∧
    (tick k 0 cy sy r st).posZ = st.posZ ∧
    (tick k 0 cy sy r st).yaw = st.yaw ∧
    (tick k 0 cy sy r st).signalTimer = st.signalTimer ∧
    (tick k 0 cy sy r st).signalBlink = st.signalBlink ∧
    (tick k 0 cy sy r st).traffic = st.traffic ∧
    (tick k 0 cy sy r st).steeringInput = max (-1) (min 1 st.steeringInput) * (9/10) ∧
    (tick k 0 cy sy r st).rpm = rpmOf k st.speed ∧
    (tick k 0 cy sy r st).steeringAngle
      = max (-1) (min 1 st.steeringInput) * (9/10) * (7/10) ∧
    (tick k 0 cy sy r st).leftSignal = (signalStep k st.leftSignal st.rightSignal).1 ∧
    (tick k 0 cy sy r st).rightSignal = (signalStep k st.leftSignal st.rightSignal).2 := by
  have hsp := speedStep_zero k st.speed h0 h1
  have htr' := trafficStep_zero st.speed st.posZ r 0 st.traffic htr
  simp [tick, hsp, mul_zero, add_zero, steeringStep_zero,
    timerStep_zero st.signalTimer st.signalBlink ht, htr']

/-- The initial state with a nonzero steering input. -/
def steerHalfState : SimState := { initState [] with steeringInput := 1/2 }

/-- C1 counterexample: from a reachable-shaped state with steering input
1/2, tick(0) changes the steering input to 9/20 (the `*= 0.9` decay runs
every tick regardless of dt), so tick(0) is not a no-op on the numeric
simulation state. -/
theorem C1_counterexample :
    steerHalfState.steeringInput = 1/2 ∧
    (tick noKeys 0 1 0 (fun _ => rnd0) steerHalfState).steeringInput = 9/20 ∧
    (9/20 : ℚ) ≠ 1/2 := by
  refine ⟨rfl, ?_, by norm_num⟩
  norm_num [tick, steeringStep, steerHalfState, initState, noKeys]

/-- Witness for C1 at the initial state. -/
theorem C1_tick_zero_witness :
    (0 ≤ (initState []).speed ∧ (initState []).speed ≤ 260 ∧
      (initState []).signalTimer ≤ 1/2 ∧
      (∀ a ∈ (initState []).traffic, a.z ≤ (initState []).posZ + 50)) ∧
    ((tick noKeys 0 1 0 (fun _ => rnd0) (initState [])).speed = (initState []).speed ∧
      (tick noKeys 0 1 0 (fun _ => rnd0) (initState [])).posX = (initState []).posX ∧
      (tick noKeys 0 1 0 (fun _ => rnd0) (initState [])).posZ = (initState []).posZ ∧
      (tick noKeys 0 1 0 (fun _ => rnd0) (initState [])).yaw = (initState []).yaw ∧
      (tick noKeys 0 1 0 (fun _ => rnd0) (initState [])).signalTimer
        = (initState []).signalTimer ∧
      (tick noKeys 0 1 0 (fun _ => rnd0) (initState [])).signalBlink
        = (initState []).signalBlink ∧
      (tick noKeys 0 1 0 (fun _ => rnd0) (initState [])).traffic
        = (initState []).traffic ∧
      (tick noKeys 0 1 0 (fun _ => rnd0) (initState [])).steeringInput
        = max (-1) (min 1 (initState []).steeringInput) * (9/10) ∧
      (tick noKeys 0 1 0 (fun _ => rnd0) (initState [])).rpm
        = rpmOf noKeys (initState []).speed ∧
      (tick noKeys 0 1 0 (fun _ => rnd0) (initState [])).steeringAngle
        = max (-1) (min 1 (initState []).steeringInput) * (9/10) * (7/10) ∧
      (tick noKeys 0 1 0 (fun _ => rnd0) (initState [])).leftSignal
        = (signalStep noKeys (initState []).leftSignal (initState []).rightSignal).1 ∧
      (tick noKeys 0 1 0 (fun _ => rnd0) (initState [])).rightSignal
        = (signalStep noKeys (initState []).leftSignal (initState []).rightSignal).2) :=
  ⟨⟨by norm_num [initState], by norm_num [initState], by norm_num [initState],
      by intro a ha; simp [initState] at ha⟩,
    C1_tick_zero noKeys 1 0 (fun _ => rnd0) (initState [])
      (by norm_num [initState]) (by norm_num [initState]) (by norm_num [initState])
      (by intro a ha; simp [initState] at ha)⟩

end AMG
